import Mathlib

/-!
Shallow embedding of `src/train.py` (training loop for a low-light image
enhancement model). Tensors are flattened lists of rationals; the model,
optimizer, VGG feature extractor, PSNR/SSIM metrics and the per-epoch
DataLoader shuffle are opaque collaborators gathered in an `Env`. Floats
are modelled as `ℚ`. Python's `ZeroDivisionError` (mean over an empty
loader) is modelled by `Option`; collaborator exceptions are modelled
separately in a fallible (`Except`) copy of the same loop. Side effects
(`save_model`, `save_output_images`) are recorded as an event trace.
The optimizer's internal state is folded into the model state `M`
(both are persisted together by `save_model`).
-/

/-- Image tensor, flattened to a list of rationals (shape forgotten). -/
abbrev Tensor : Type := List ℚ

/-- One batch from a data loader: `(inputs, targets)` as yielded by
`for inputs, targets in data_loaders[...]`. -/
structure Batch where
  inputs : Tensor
  targets : Tensor
deriving DecidableEq

/-- Mean squared error, `F.mse_loss` / `nn.MSELoss()` over equal-shaped
tensors: mean of elementwise squared differences. -/
def mse_loss (a b : Tensor) : ℚ :=
  ((List.zipWith (fun x y => (x - y) ^ 2) a b).sum) / (a.length : ℚ)

/-- The fixed perceptual-loss weight, `perceptual_loss_weight = 0.5`. -/
def perceptual_loss_weight : ℚ := 1 / 2

/-- Opaque collaborators of the training loop, as used by `train`:
`forward` is the model's forward pass; `opt_step` is the combined
`loss.backward(); optimizer.step()` effect on the model/optimizer state;
`criterion` is the loss passed into `train` (instantiated with
`nn.MSELoss()` by `__main__`); `vgg` is the frozen
`vgg19(...).features[:16]` extractor; `psnr` and `ssim` are the
torchmetrics collaborators (per-batch scalar from output/target);
`shuffle` is the per-epoch DataLoader shuffling, threaded through an
abstract RNG state seeded at process start. -/
structure Env (M : Type) where
  forward : M → Tensor → Tensor
  opt_step : M → Batch → M
  criterion : Tensor → Tensor → ℚ
  vgg : Tensor → Tensor
  psnr : Tensor → Tensor → ℚ
  ssim : Tensor → Tensor → ℚ
  shuffle : Nat → List Batch → List Batch × Nat

/-- Per-batch composed loss, transcribing
`loss = criterion(outputs, targets)`;
`perceptual_loss = perceptual_loss_weight * F.mse_loss(vgg(outputs), vgg(targets))`;
`loss = loss + perceptual_loss`. -/
def batch_loss {M : Type} (env : Env M) (outputs targets : Tensor) : ℚ :=
  env.criterion outputs targets
    + perceptual_loss_weight * mse_loss (env.vgg outputs) (env.vgg targets)

/-- Per-epoch per-phase statistics: the three running means. -/
structure EpochStats where
  loss : ℚ
  psnr : ℚ
  ssim : ℚ
deriving DecidableEq

/-- Finalizing an epoch's sums: `x = x / len(data_loaders[phase])`.
Python raises `ZeroDivisionError` when the loader is empty, modelled
as `none`. -/
def finalize_stats (loss psnr ssim : ℚ) (n : Nat) : Option EpochStats :=
  if n = 0 then none
  else some { loss := loss / (n : ℚ), psnr := psnr / (n : ℚ), ssim := ssim / (n : ℚ) }

/-- External side effects of the loop, in program order:
`save_output_images(outputs, SAVE_DIR_ROOT, epoch, MODEL_NAME, device, is_best)`
and `save_model(model, optimizer, val_loss, val_psnr, val_ssim, epoch, ...)`
(the optimizer state is folded into `M`). -/
inductive Event (M : Type) where
  | save_output_images (outputs : Tensor) (epoch : Nat) (is_best : Bool)
  | save_model (model : M) (loss psnr ssim : ℚ) (epoch : Nat)
deriving DecidableEq

/-- Accumulator of the training loop over batches: the mutable model
(and optimizer) state plus the running sums `train_loss`, `train_psnr`,
`train_ssim`. -/
structure TrainAcc (M : Type) where
  model : M
  train_loss : ℚ
  train_psnr : ℚ
  train_ssim : ℚ
deriving DecidableEq

/-- Body of the training batch loop: compute `outputs`, the composed
loss, accumulate loss/PSNR/SSIM, then `loss.backward(); optimizer.step()`
(the `opt_step` collaborator, applied after the metrics are read, as in
the source). -/
def train_batch_step {M : Type} (env : Env M) (acc : TrainAcc M) (b : Batch) : TrainAcc M :=
  let outputs := env.forward acc.model b.inputs
  let loss := batch_loss env outputs b.targets
  { model := env.opt_step acc.model b
    train_loss := acc.train_loss + loss
    train_psnr := acc.train_psnr + env.psnr outputs b.targets
    train_ssim := acc.train_ssim + env.ssim outputs b.targets }

/-- One training pass: fold the batch loop from zero sums, then divide
each sum by `len(data_loaders['train'])`. Returns the stepped model and
the finalized stats (or `none` on an empty loader). -/
def train_epoch {M : Type} (env : Env M) (m : M) (batches : List Batch) :
    M × Option EpochStats :=
  let acc := batches.foldl (train_batch_step env) ⟨m, 0, 0, 0⟩
  (acc.model, finalize_stats acc.train_loss acc.train_psnr acc.train_ssim batches.length)

/-- Accumulator of the validation loop: model state (read, never
written), running sums, the `outputs` python variable (last computed
batch outputs), and the emitted image-save events. -/
structure ValAcc (M : Type) where
  model : M
  val_loss : ℚ
  val_psnr : ℚ
  val_ssim : ℚ
  outputs : Option Tensor
  events : List (Event M)
deriving DecidableEq

/-- Body of the validation batch loop: compute `outputs`, the composed
loss, accumulate loss/PSNR/SSIM, and
`if (epoch + 1) % 20 == 0: save_output_images(outputs, ..., epoch, ...)`.
The only optimizer call in the body is `optimizer.zero_grad()` (gradient
buffers, not weights), so the model state is returned unchanged. -/
def val_batch_step {M : Type} (env : Env M) (epoch : Nat) (acc : ValAcc M) (b : Batch) :
    ValAcc M :=
  let outputs := env.forward acc.model b.inputs
  let loss := batch_loss env outputs b.targets
  { model := acc.model
    val_loss := acc.val_loss + loss
    val_psnr := acc.val_psnr + env.psnr outputs b.targets
    val_ssim := acc.val_ssim + env.ssim outputs b.targets
    outputs := some outputs
    events := acc.events ++
      (if (epoch + 1) % 20 = 0 then [Event.save_output_images outputs epoch false] else []) }

/-- One validation pass (inside `torch.no_grad()`): fold the batch loop
from zero sums, then divide by `len(data_loaders['validation'])`. -/
def val_epoch {M : Type} (env : Env M) (m : M) (epoch : Nat) (batches : List Batch) :
    ValAcc M × Option EpochStats :=
  let acc := batches.foldl (val_batch_step env epoch) ⟨m, 0, 0, 0, none, []⟩
  (acc, finalize_stats acc.val_loss acc.val_psnr acc.val_ssim batches.length)

/-- The checkpoint check, transcribing
`if val_psnr > best_psnr: save_model(...); save_output_images(..., True)`.
The source never reassigns `best_psnr`, so the first component returns it
unchanged in both branches. `outputs` is the last validation batch's
outputs (always present here, since an empty validation loader fails the
preceding division). -/
def checkpoint_check {M : Type} (m : M) (best_psnr : ℚ) (val_stats : EpochStats)
    (outputs : Option Tensor) (epoch : Nat) : ℚ × List (Event M) :=
  if val_stats.psnr > best_psnr then
    (best_psnr,
      [Event.save_model m val_stats.loss val_stats.psnr val_stats.ssim epoch,
       Event.save_output_images (outputs.getD []) epoch true])
  else
    (best_psnr, [])

/-- Result of one iteration of the epoch loop. -/
structure EpochResult (M : Type) where
  model : M
  best_psnr : ℚ
  train_stats : EpochStats
  val_stats : EpochStats
  events : List (Event M)
deriving DecidableEq

/-- One epoch of the loop body: training pass, validation pass, then the
checkpoint check; `none` models the uncaught `ZeroDivisionError` of an
empty loader (training division happens before validation, as in the
source). Events are emitted in program order: periodic image saves during
the validation loop, then the checkpoint writes. -/
def run_epoch {M : Type} (env : Env M) (m : M) (best_psnr : ℚ) (epoch : Nat)
    (train_batches val_batches : List Batch) : Option (EpochResult M) :=
  match train_epoch env m train_batches with
  | (_, none) => none
  | (m1, some tstats) =>
    match val_epoch env m1 epoch val_batches with
    | (_, none) => none
    | (vacc, some vstats) =>
      let bev := checkpoint_check vacc.model best_psnr vstats vacc.outputs epoch
      some { model := vacc.model, best_psnr := bev.1, train_stats := tstats,
             val_stats := vstats, events := vacc.events ++ bev.2 }

/-- Result of a whole run: final model/optimizer state, final
`best_psnr`, the recorded `train_losses` / `val_losses` histories in
epoch order, and the full event trace. -/
structure RunResult (M : Type) where
  model : M
  best_psnr : ℚ
  train_losses : List ℚ
  val_losses : List ℚ
  events : List (Event M)
deriving DecidableEq

/-- The epoch loop `for epoch in range(n_epoch)`. Each epoch draws the
shuffled batches for both phases from the RNG-threaded `shuffle`
collaborator, runs the epoch, records `train_loss` / `val_loss` into the
histories, and continues with the epoch's model and `best_psnr`.
Arguments after the data: model state, `best_psnr`, RNG state, current
epoch index, remaining epoch count. -/
def run_loop {M : Type} (env : Env M) (train_data val_data : List Batch) :
    M → ℚ → Nat → Nat → Nat → Option (RunResult M)
  | m, best, _, _, 0 => some { model := m, best_psnr := best,
                               train_losses := [], val_losses := [], events := [] }
  | m, best, rng, epoch, k + 1 =>
    let ts := env.shuffle rng train_data
    let vs := env.shuffle ts.2 val_data
    match run_epoch env m best epoch ts.1 vs.1 with
    | none => none
    | some er =>
      match run_loop env train_data val_data er.model er.best_psnr vs.2 (epoch + 1) k with
      | none => none
      | some rr =>
        some { model := rr.model, best_psnr := rr.best_psnr,
               train_losses := er.train_stats.loss :: rr.train_losses,
               val_losses := er.val_stats.loss :: rr.val_losses,
               events := er.events ++ rr.events }

/-- The `train` entry point: `best_psnr = 0.0`, epoch index from 0, the
RNG chain seeded with the process seed (`seed_value = 42` in
`__main__`). -/
def train {M : Type} (env : Env M) (m0 : M) (seed : Nat) (n_epoch : Nat)
    (train_data val_data : List Batch) : Option (RunResult M) :=
  run_loop env train_data val_data m0 0 seed 0 n_epoch

/-- Checkpoint-write recognizer: `save_model` events. -/
def isCheckpointWrite {M : Type} : Event M → Bool
  | Event.save_model _ _ _ _ _ => true
  | _ => false

/-- Periodic (every-20th-epoch) image-save recognizer:
`save_output_images` with `is_best = False`. -/
def isPeriodicImageWrite {M : Type} : Event M → Bool
  | Event.save_output_images _ _ false => true
  | _ => false

/-- Best-tagged image-save recognizer: `save_output_images` with
`is_best = True`. -/
def isBestImageWrite {M : Type} : Event M → Bool
  | Event.save_output_images _ _ true => true
  | _ => false

/-- Lifts a predicate over the `some` case of an `Option` (trivially
true on `none`). -/
def optAll {α : Type _} (p : α → Prop) : Option α → Prop
  | none => True
  | some a => p a

/-- Model state after folding the optimizer steps of a training pass
over a batch list. -/
def final_model {M : Type} (env : Env M) : M → List Batch → M
  | m, [] => m
  | m, b :: bs => final_model env (env.opt_step m b) bs

/-- Per-batch (loss, psnr, ssim) values of a training pass, each batch's
values computed against the model state the loop sees at that batch
(the model steps between batches). -/
def train_batch_vals {M : Type} (env : Env M) : M → List Batch → List (ℚ × ℚ × ℚ)
  | _, [] => []
  | m, b :: bs =>
    let outputs := env.forward m b.inputs
    (batch_loss env outputs b.targets, env.psnr outputs b.targets, env.ssim outputs b.targets)
      :: train_batch_vals env (env.opt_step m b) bs

/-- Per-batch (loss, psnr, ssim) values of a validation pass; the model
state is fixed throughout. -/
def val_batch_vals {M : Type} (env : Env M) (m : M) (bs : List Batch) : List (ℚ × ℚ × ℚ) :=
  bs.map (fun b =>
    let outputs := env.forward m b.inputs
    (batch_loss env outputs b.targets, env.psnr outputs b.targets, env.ssim outputs b.targets))

/-- Value of the `outputs` variable after a validation loop: the last
batch's outputs, or the incoming value when the loop body never runs. -/
def val_outputs_last {M : Type} (env : Env M) (m : M) : Option Tensor → List Batch → Option Tensor
  | o, [] => o
  | _, b :: bs => val_outputs_last env m (some (env.forward m b.inputs)) bs

/-- Periodic image-save events emitted by a validation loop at a given
epoch: one per batch when `(epoch + 1) % 20 == 0`, none otherwise. -/
def periodic_events {M : Type} (env : Env M) (m : M) (epoch : Nat) (bs : List Batch) :
    List (Event M) :=
  if (epoch + 1) % 20 = 0
  then bs.map (fun b => Event.save_output_images (env.forward m b.inputs) epoch false)
  else []

theorem train_foldl {M : Type} (env : Env M) :
    ∀ (bs : List Batch) (m : M) (a b c : ℚ),
      bs.foldl (train_batch_step env) ⟨m, a, b, c⟩ =
        ⟨final_model env m bs,
         a + ((train_batch_vals env m bs).map (fun v => v.1)).sum,
         b + ((train_batch_vals env m bs).map (fun v => v.2.1)).sum,
         c + ((train_batch_vals env m bs).map (fun v => v.2.2)).sum⟩ := by
  intro bs
  induction bs with
  | nil =>
    intro m a b c
    simp [final_model, train_batch_vals]
  | cons hd tl ih =>
    intro m a b c
    simp only [List.foldl_cons, train_batch_step, final_model, train_batch_vals,
      List.map_cons, List.sum_cons]
    rw [ih]
    simp only [TrainAcc.mk.injEq, true_and]
    exact ⟨by ring, by ring, by ring⟩

theorem val_foldl {M : Type} (env : Env M) (epoch : Nat) :
    ∀ (bs : List Batch) (m : M) (a b c : ℚ) (o : Option Tensor) (evs : List (Event M)),
      bs.foldl (val_batch_step env epoch) ⟨m, a, b, c, o, evs⟩ =
        ⟨m,
         a + ((val_batch_vals env m bs).map (fun v => v.1)).sum,
         b + ((val_batch_vals env m bs).map (fun v => v.2.1)).sum,
         c + ((val_batch_vals env m bs).map (fun v => v.2.2)).sum,
         val_outputs_last env m o bs,
         evs ++ periodic_events env m epoch bs⟩ := by
  intro bs
  induction bs with
  | nil =>
    intro m a b c o evs
    simp [val_batch_vals, val_outputs_last, periodic_events]
  | cons hd tl ih =>
    intro m a b c o evs
    simp only [List.foldl_cons, val_batch_step]
    rw [ih]
    simp only [ValAcc.mk.injEq, true_and]
    refine ⟨?_, ?_, ?_, ?_, ?_⟩
    · simp only [val_batch_vals, List.map_cons, List.sum_cons]
      ring
    · simp only [val_batch_vals, List.map_cons, List.sum_cons]
      ring
    · simp only [val_batch_vals, List.map_cons, List.sum_cons]
      ring
    · simp [val_outputs_last]
    · by_cases h20 : (epoch + 1) % 20 = 0 <;>
        simp [periodic_events, h20, List.append_assoc]

/-- Concrete instantiation of the collaborators over model state `ℚ`:
the forward pass reports the current model state as a one-pixel output,
each optimizer step decreases the state by 2, and the PSNR collaborator
reads that pixel, so consecutive validation passes observe strictly
decreasing PSNR values. -/
def envW : Env ℚ :=
  { forward := fun m _ => [m]
    opt_step := fun m _ => m - 2
    criterion := fun _ _ => 0
    vgg := fun _ => [0]
    psnr := fun o _ => o.headD 0
    ssim := fun _ _ => 0
    shuffle := fun r bs => (bs, r) }

/-- A one-sample batch. -/
def bW : Batch := { inputs := [0], targets := [0] }

/-- Concrete collaborators over model state `ℚ` whose optimizer step is
the identity and whose PSNR is the (constant) model state; used for
epoch-count scenarios where the checkpoint branch must stay quiet. -/
def envW2 : Env ℚ :=
  { forward := fun m _ => [m]
    opt_step := fun m _ => m
    criterion := fun _ _ => 0
    vgg := fun _ => [0]
    psnr := fun o _ => o.headD 0
    ssim := fun _ _ => 0
    shuffle := fun r bs => (bs, r) }

/-- Claim C1 (code_bug evidence). The claim's own scenario — two
consecutive epochs whose mean validation PSNR is 20.0 then 18.0 —
executed on the code: because `best_psnr` is never reassigned after its
initialization to 0.0, the run performs a checkpoint write (`save_model`
plus a best-tagged image write) after BOTH epochs, with recorded PSNR
20 then 18, where the claim requires a write after epoch 1 only. -/
theorem spec_c1_code_behavior :
    (train envW 22 42 2 [bW] [bW]).map RunResult.events =
      some [Event.save_model 20 0 20 0 0, Event.save_output_images [20] 0 true,
            Event.save_model 18 0 18 0 1, Event.save_output_images [18] 1 true] ∧
    (train envW 22 42 2 [bW] [bW]).map
        (fun rr => (rr.events.filter isCheckpointWrite).length) = some 2 := by
  constructor <;>
    norm_num [train, run_loop, run_epoch, train_epoch, val_epoch, train_batch_step,
      val_batch_step, checkpoint_check, finalize_stats, batch_loss, mse_loss,
      perceptual_loss_weight, envW, bW, isCheckpointWrite, List.filter]

/-- Claim C2 (code_bug evidence). An epoch whose mean validation PSNR is
20.0 strictly exceeds the current `best_psnr` of 0.0, yet after the
epoch `best_psnr` is still 0.0 — the source never executes
`best_psnr = val_psnr`, contradicting the claimed update and the claimed
"equals the maximum of 0.0 and all validation PSNR means observed". -/
theorem spec_c2_code_behavior :
    (run_epoch envW 22 0 0 [bW] [bW]).map
        (fun er => (er.val_stats.psnr, er.best_psnr)) = some (20, 0) := by
  norm_num [run_epoch, train_epoch, val_epoch, train_batch_step, val_batch_step,
    checkpoint_check, finalize_stats, batch_loss, mse_loss, perceptual_loss_weight,
    envW, bW]

/-- Claim C7. Determinism: the embedded run is a pure function of the
collaborators, the configuration and the seed, so two runs with the
fixed seed 42 and identical configuration produce identical train-loss
and validation-loss histories. -/
theorem spec_c7_determinism {M : Type} (env : Env M) (m0 : M) (n : Nat)
    (train_data val_data : List Batch) (s1 s2 : Nat) (h1 : s1 = 42) (h2 : s2 = 42) :
    (train env m0 s1 n train_data val_data).map (fun rr => (rr.train_losses, rr.val_losses)) =
      (train env m0 s2 n train_data val_data).map (fun rr => (rr.train_losses, rr.val_losses)) := by
  subst h1
  subst h2
  rfl

/-- Witness for C7 at a concrete configuration and the fixed seed 42. -/
theorem spec_c7_determinism_witness :
    (train envW 22 42 2 [bW] [bW]).map (fun rr => (rr.train_losses, rr.val_losses)) =
      (train envW 22 42 2 [bW] [bW]).map (fun rr => (rr.train_losses, rr.val_losses)) :=
  spec_c7_determinism envW 22 2 [bW] [bW] 42 42 rfl rfl

set_option maxHeartbeats 4000000 in
/-- Claim C5 counterexample. A 20-epoch run whose validation loader
holds two batches: on the single qualifying epoch (the 20th), the code
emits a periodic (non-best) image write on EVERY validation batch — two
emissions — whereas the claim asserts one emission per qualifying epoch.
(The model state is constant at 0 here, so no best-tagged writes occur:
every periodic write is counted.) -/
theorem spec_c5_counterexample :
    (train envW2 0 42 20 [bW] [bW, bW]).map
        (fun rr => (rr.events.filter isPeriodicImageWrite).length) = some 2 ∧
    ¬ (train envW2 0 42 20 [bW] [bW, bW]).map
        (fun rr => (rr.events.filter isPeriodicImageWrite).length) = some 1 := by
  have h : (train envW2 0 42 20 [bW] [bW, bW]).map
      (fun rr => (rr.events.filter isPeriodicImageWrite).length) = some 2 := by
    norm_num [train, run_loop, run_epoch, train_epoch, val_epoch, train_batch_step,
      val_batch_step, checkpoint_check, finalize_stats, batch_loss, mse_loss,
      perceptual_loss_weight, envW2, bW, isPeriodicImageWrite, List.filter]
  refine ⟨h, ?_⟩
  rw [h]
  simp

/-- Arithmetic means of the per-batch training values: each field is the
sum of per-batch values divided by the number of batches. -/
def train_stats_mean {M : Type} (env : Env M) (m : M) (bs : List Batch) : EpochStats :=
  { loss := ((train_batch_vals env m bs).map (fun v => v.1)).sum / (bs.length : ℚ)
    psnr := ((train_batch_vals env m bs).map (fun v => v.2.1)).sum / (bs.length : ℚ)
    ssim := ((train_batch_vals env m bs).map (fun v => v.2.2)).sum / (bs.length : ℚ) }

/-- Arithmetic means of the per-batch validation values. -/
def val_stats_mean {M : Type} (env : Env M) (m : M) (bs : List Batch) : EpochStats :=
  { loss := ((val_batch_vals env m bs).map (fun v => v.1)).sum / (bs.length : ℚ)
    psnr := ((val_batch_vals env m bs).map (fun v => v.2.1)).sum / (bs.length : ℚ)
    ssim := ((val_batch_vals env m bs).map (fun v => v.2.2)).sum / (bs.length : ℚ) }

theorem train_epoch_eq {M : Type} (env : Env M) (m : M) (bs : List Batch) :
    train_epoch env m bs =
      (final_model env m bs,
       if bs.length = 0 then none else some (train_stats_mean env m bs)) := by
  by_cases h : bs.length = 0 <;>
    simp [train_epoch, train_foldl, finalize_stats, train_stats_mean, h]

theorem val_epoch_eq {M : Type} (env : Env M) (m : M) (e : Nat) (bs : List Batch) :
    val_epoch env m e bs =
      (⟨m,
        ((val_batch_vals env m bs).map (fun v => v.1)).sum,
        ((val_batch_vals env m bs).map (fun v => v.2.1)).sum,
        ((val_batch_vals env m bs).map (fun v => v.2.2)).sum,
        val_outputs_last env m none bs,
        periodic_events env m e bs⟩,
       if bs.length = 0 then none else some (val_stats_mean env m bs)) := by
  by_cases h : bs.length = 0 <;>
    simp [val_epoch, val_foldl, finalize_stats, val_stats_mean, h]

theorem checkpoint_check_fst {M : Type} (m : M) (best : ℚ) (v : EpochStats)
    (o : Option Tensor) (e : Nat) : (checkpoint_check m best v o e).1 = best := by
  unfold checkpoint_check
  split <;> rfl

/-- Complete evaluation of one epoch on nonempty loaders: the epoch
yields the train/validation means, the model stepped only by the
training pass, an unchanged `best_psnr`, and the periodic image events
followed by the checkpoint events. -/
theorem run_epoch_eq {M : Type} (env : Env M) (m : M) (best : ℚ) (e : Nat)
    (tb vb : List Batch) (htb : tb ≠ []) (hvb : vb ≠ []) :
    run_epoch env m best e tb vb = some
      { model := final_model env m tb
        best_psnr := best
        train_stats := train_stats_mean env m tb
        val_stats := val_stats_mean env (final_model env m tb) vb
        events := periodic_events env (final_model env m tb) e vb ++
          (checkpoint_check (final_model env m tb) best
            (val_stats_mean env (final_model env m tb) vb)
            (val_outputs_last env (final_model env m tb) none vb) e).2 } := by
  have h1 : ¬ tb.length = 0 := by simpa [List.length_eq_zero] using htb
  have h2 : ¬ vb.length = 0 := by simpa [List.length_eq_zero] using hvb
  simp [run_epoch, train_epoch_eq, val_epoch_eq, h1, h2, checkpoint_check_fst]

/-- The epoch fails (uncaught `ZeroDivisionError`) exactly when one of
the two loaders is empty. -/
theorem run_epoch_none_iff {M : Type} (env : Env M) (m : M) (best : ℚ) (e : Nat)
    (tb vb : List Batch) :
    run_epoch env m best e tb vb = none ↔ tb = [] ∨ vb = [] := by
  by_cases htb : tb = []
  · subst htb
    simp [run_epoch, train_epoch_eq]
  · by_cases hvb : vb = []
    · subst hvb
      have h1 : ¬ tb.length = 0 := by simpa [List.length_eq_zero] using htb
      simp [run_epoch, train_epoch_eq, val_epoch_eq, h1, htb]
    · simp [run_epoch_eq env m best e tb vb htb hvb, htb, hvb]

theorem filter_map_none {α β : Type _} (f : α → β) (p : β → Bool) (l : List α)
    (h : ∀ a, p (f a) = false) : (l.map f).filter p = [] := by
  induction l with
  | nil => rfl
  | cons hd tl ih => simp [h, ih]

theorem filter_map_all {α β : Type _} (f : α → β) (p : β → Bool) (l : List α)
    (h : ∀ a, p (f a) = true) : (l.map f).filter p = l.map f := by
  induction l with
  | nil => rfl
  | cons hd tl ih => simp [h, ih]

theorem periodic_events_filter_ckpt {M : Type} (env : Env M) (m : M) (e : Nat)
    (bs : List Batch) : (periodic_events env m e bs).filter isCheckpointWrite = [] := by
  unfold periodic_events
  split
  · exact filter_map_none _ _ _ (fun a => rfl)
  · rfl

theorem periodic_events_filter_best {M : Type} (env : Env M) (m : M) (e : Nat)
    (bs : List Batch) : (periodic_events env m e bs).filter isBestImageWrite = [] := by
  unfold periodic_events
  split
  · exact filter_map_none _ _ _ (fun a => rfl)
  · rfl

theorem periodic_events_filter_self {M : Type} (env : Env M) (m : M) (e : Nat)
    (bs : List Batch) :
    (periodic_events env m e bs).filter isPeriodicImageWrite = periodic_events env m e bs := by
  unfold periodic_events
  split
  · exact filter_map_all _ _ _ (fun a => rfl)
  · rfl

theorem train_batch_vals_length {M : Type} (env : Env M) :
    ∀ (bs : List Batch) (m : M), (train_batch_vals env m bs).length = bs.length := by
  intro bs
  induction bs with
  | nil => intro m; rfl
  | cons hd tl ih => intro m; simp [train_batch_vals, ih]

/-- Claim C3. For either phase on a nonempty loader, the returned
`EpochStats` are exactly the arithmetic means of the per-batch values:
the per-batch value lists have one entry per batch of the loader, and
each stats field is the list's sum divided by the batch count
(`train_stats_mean` / `val_stats_mean`). -/
theorem spec_c3_epoch_stats_means {M : Type} (env : Env M) (m : M) (e : Nat)
    (bs : List Batch) (hb : bs ≠ []) :
    (train_batch_vals env m bs).length = bs.length ∧
    (train_epoch env m bs).2 = some (train_stats_mean env m bs) ∧
    (val_batch_vals env m bs).length = bs.length ∧
    (val_epoch env m e bs).2 = some (val_stats_mean env m bs) := by
  have h : ¬ bs.length = 0 := by simpa [List.length_eq_zero] using hb
  exact ⟨train_batch_vals_length env bs m,
    by simp [train_epoch_eq, h],
    by simp [val_batch_vals],
    by simp [val_epoch_eq, h]⟩

/-- Witness for C3: a concrete one-batch loader for both phases. -/
theorem spec_c3_epoch_stats_means_witness :
    (train_batch_vals envW 22 [bW]).length = [bW].length ∧
    (train_epoch envW 22 [bW]).2 = some (train_stats_mean envW 22 [bW]) ∧
    (val_batch_vals envW 22 [bW]).length = [bW].length ∧
    (val_epoch envW 22 0 [bW]).2 = some (val_stats_mean envW 22 [bW]) :=
  spec_c3_epoch_stats_means envW 22 0 [bW] (by simp)

/-- Claim C6. Frame property of the validation pass: the model state
coming out of a validation pass is the state that went in, so after a
full epoch the model equals the result of the training pass alone —
only TRAIN-mode optimizer steps mutate it (the validation body's sole
optimizer call is `zero_grad()`, which touches gradient buffers). -/
theorem spec_c6_validation_frame {M : Type} (env : Env M) (m : M) (best : ℚ) (e : Nat)
    (bs tb vb : List Batch) :
    ((val_epoch env m e bs).1).model = m ∧
    optAll (fun er => er.model = (train_epoch env m tb).1)
      (run_epoch env m best e tb vb) := by
  constructor
  · simp [val_epoch_eq]
  · by_cases htb : tb = []
    · simp [(run_epoch_none_iff env m best e tb vb).mpr (Or.inl htb), optAll]
    · by_cases hvb : vb = []
      · simp [(run_epoch_none_iff env m best e tb vb).mpr (Or.inr hvb), optAll]
      · simp [run_epoch_eq env m best e tb vb htb hvb, optAll, train_epoch_eq]

/-- Claim C10. Finalizing divides by the loader's batch count, so it
fails (Python `ZeroDivisionError`, modelled `none`) exactly on a zero
count, and an epoch fails rather than returning stats exactly when one
of its phases has an empty loader. -/
theorem spec_c10_empty_loader_failure {M : Type} (env : Env M) (m : M) (best : ℚ)
    (e : Nat) (tb vb : List Batch) (l p s : ℚ) (n : Nat) :
    (finalize_stats l p s n = none ↔ n = 0) ∧
    (run_epoch env m best e tb vb = none ↔ tb = [] ∨ vb = []) := by
  constructor
  · by_cases h : n = 0 <;> simp [finalize_stats, h]
  · exact run_epoch_none_iff env m best e tb vb

/-- Claim C5, amended. On a successful epoch, the periodic (non-best)
image writes are exactly one per validation batch when the 1-indexed
epoch number is a multiple of 20 — each carrying that batch's outputs
and tagged with the 0-indexed epoch — and none otherwise; the only
other image writes are the best-tagged ones, present exactly when the
checkpoint branch fires. -/
theorem spec_c5_amended {M : Type} (env : Env M) (m : M) (best : ℚ) (e : Nat)
    (tb vb : List Batch) :
    optAll (fun er =>
        er.events.filter isPeriodicImageWrite =
          (if (e + 1) % 20 = 0
           then vb.map (fun b =>
             Event.save_output_images (env.forward (train_epoch env m tb).1 b.inputs) e false)
           else []) ∧
        (er.events.filter isBestImageWrite).length =
          (if best < er.val_stats.psnr then 1 else 0))
      (run_epoch env m best e tb vb) := by
  by_cases htb : tb = []
  · simp [(run_epoch_none_iff env m best e tb vb).mpr (Or.inl htb), optAll]
  · by_cases hvb : vb = []
    · simp [(run_epoch_none_iff env m best e tb vb).mpr (Or.inr hvb), optAll]
    · rw [run_epoch_eq env m best e tb vb htb hvb]
      simp only [optAll]
      constructor
      · rw [List.filter_append, periodic_events_filter_self]
        have hck2 : ((checkpoint_check (final_model env m tb) best
            (val_stats_mean env (final_model env m tb) vb)
            (val_outputs_last env (final_model env m tb) none vb) e).2).filter
              isPeriodicImageWrite = [] := by
          unfold checkpoint_check
          split <;> rfl
        rw [hck2, List.append_nil]
        simp [periodic_events, train_epoch_eq]
      · by_cases hc : (val_stats_mean env (final_model env m tb) vb).psnr > best
        · simp [checkpoint_check, hc, List.filter_append, periodic_events_filter_best,
            isBestImageWrite]
        · simp [checkpoint_check, hc, List.filter_append, periodic_events_filter_best,
            not_lt_of_gt, hc]

theorem run_epoch_best {M : Type} (env : Env M) (m : M) (best : ℚ) (e : Nat)
    (tb vb : List Batch) :
    optAll (fun er => er.best_psnr = best) (run_epoch env m best e tb vb) := by
  by_cases htb : tb = []
  · simp [(run_epoch_none_iff env m best e tb vb).mpr (Or.inl htb), optAll]
  · by_cases hvb : vb = []
    · simp [(run_epoch_none_iff env m best e tb vb).mpr (Or.inr hvb), optAll]
    · simp [run_epoch_eq env m best e tb vb htb hvb, optAll]

theorem run_loop_best {M : Type} (env : Env M) (train_data val_data : List Batch) :
    ∀ (k : Nat) (m : M) (best : ℚ) (rng e : Nat),
      optAll (fun rr => rr.best_psnr = best) (run_loop env train_data val_data m best rng e k) := by
  intro k
  induction k with
  | zero =>
    intro m best rng e
    simp [run_loop, optAll]
  | succ k ih =>
    intro m best rng e
    simp only [run_loop]
    cases h1 : run_epoch env m best e (env.shuffle rng train_data).1
        (env.shuffle (env.shuffle rng train_data).2 val_data).1 with
    | none => simp [h1, optAll]
    | some er =>
      have hb : er.best_psnr = best := by
        have h := run_epoch_best env m best e (env.shuffle rng train_data).1
          (env.shuffle (env.shuffle rng train_data).2 val_data).1
        rw [h1] at h
        exact h
      cases h2 : run_loop env train_data val_data er.model er.best_psnr
          (env.shuffle (env.shuffle rng train_data).2 val_data).2 (e + 1) k with
      | none => simp [h1, h2, optAll]
      | some rr =>
        have h := ih er.model er.best_psnr
          (env.shuffle (env.shuffle rng train_data).2 val_data).2 (e + 1)
        rw [h2] at h
        simp only [optAll] at h
        simp only [h1, h2, optAll]
        rw [h, hb]

/-- Claim C9. `best_psnr` is never reassigned after its initialization
to 0.0: every result reachable from the loop entered with
`best_psnr = 0.0` still carries 0.0, and on every successful epoch the
checkpoint write (`save_model` plus the best-tagged image write) is
performed exactly when that epoch's mean validation PSNR is strictly
positive, regardless of earlier epochs' results. -/
theorem spec_c9_best_psnr_constant {M : Type} (env : Env M) :
    (∀ (train_data val_data : List Batch) (m : M) (rng e k : Nat),
      optAll (fun rr => rr.best_psnr = 0)
        (run_loop env train_data val_data m 0 rng e k)) ∧
    (∀ (m : M) (e : Nat) (tb vb : List Batch),
      optAll (fun er => er.best_psnr = 0 ∧
          (((er.events.filter isCheckpointWrite).length = 1 ∧
            (er.events.filter isBestImageWrite).length = 1) ↔ 0 < er.val_stats.psnr))
        (run_epoch env m 0 e tb vb)) := by
  constructor
  · intro train_data val_data m rng e k
    exact run_loop_best env train_data val_data k m 0 rng e
  · intro m e tb vb
    by_cases htb : tb = []
    · simp [(run_epoch_none_iff env m 0 e tb vb).mpr (Or.inl htb), optAll]
    · by_cases hvb : vb = []
      · simp [(run_epoch_none_iff env m 0 e tb vb).mpr (Or.inr hvb), optAll]
      · rw [run_epoch_eq env m 0 e tb vb htb hvb]
        simp only [optAll]
        refine ⟨by simp, ?_⟩
        by_cases hc : (val_stats_mean env (final_model env m tb) vb).psnr > 0
        · simp [checkpoint_check, hc, List.filter_append,
            periodic_events_filter_best, periodic_events_filter_ckpt,
            isBestImageWrite, isCheckpointWrite]
        · simp [checkpoint_check, hc, List.filter_append,
            periodic_events_filter_best, periodic_events_filter_ckpt]

/-- The spec's ReconstructionLoss: mean squared error in pixel space,
written as an indexed sum over the positions of the output tensor. -/
def reconstruction_loss_spec (o t : Tensor) : ℚ :=
  (∑ i ∈ Finset.range o.length, (o.getD i 0 - t.getD i 0) ^ 2) / (o.length : ℚ)

/-- The spec's PerceptualLoss: mean squared error in feature space,
written as an indexed sum over the positions of the feature tensor. -/
def perceptual_loss_spec (fo ft : Tensor) : ℚ :=
  (∑ i ∈ Finset.range fo.length, (fo.getD i 0 - ft.getD i 0) ^ 2) / (fo.length : ℚ)

theorem zipWith_sq_sum : ∀ (a b : Tensor), a.length = b.length →
    (List.zipWith (fun x y => (x - y) ^ 2) a b).sum =
      ∑ i ∈ Finset.range a.length, (a.getD i 0 - b.getD i 0) ^ 2 := by
  intro a
  induction a with
  | nil =>
    intro b h
    simp
  | cons x xs ih =>
    intro b h
    cases b with
    | nil => simp at h
    | cons y ys =>
      simp only [List.zipWith, List.sum_cons, List.length_cons]
      rw [Finset.sum_range_succ']
      simp only [List.getD_cons_succ, List.getD_cons_zero]
      rw [ih ys (by simpa using h)]
      ring

/-- Claim C4. With the criterion `__main__` passes (`nn.MSELoss()`), the
composed per-batch loss equals ReconstructionLoss(O, T) plus the fixed
weight 0.5 times PerceptualLoss(Features(O), Features(T)), where both
losses are mean squared errors (in pixel and feature space). The
computation is a pure function of the tensors and the frozen extractor:
it reads no mutable state and the model/extractor state does not occur
in its result. -/
theorem spec_c4_loss_composer {M : Type} (env : Env M) (o t : Tensor)
    (hc : env.criterion = mse_loss) (h1 : o.length = t.length)
    (h2 : (env.vgg o).length = (env.vgg t).length) :
    batch_loss env o t =
      reconstruction_loss_spec o t
        + (1 / 2 : ℚ) * perceptual_loss_spec (env.vgg o) (env.vgg t) := by
  simp only [batch_loss, hc, perceptual_loss_weight, reconstruction_loss_spec,
    perceptual_loss_spec, mse_loss]
  rw [zipWith_sq_sum o t h1, zipWith_sq_sum _ _ h2]

/-- Concrete collaborators with the criterion instantiated to MSE, as
`__main__` does. -/
def envC : Env ℚ :=
  { forward := fun m _ => [m]
    opt_step := fun m _ => m - 2
    criterion := mse_loss
    vgg := fun _ => [0]
    psnr := fun o _ => o.headD 0
    ssim := fun _ _ => 0
    shuffle := fun r bs => (bs, r) }

/-- Witness for C4 at concrete equal-shaped tensors. -/
theorem spec_c4_loss_composer_witness :
    batch_loss envC [1, 2] [3, 4] =
      reconstruction_loss_spec [1, 2] [3, 4]
        + (1 / 2 : ℚ) * perceptual_loss_spec (envC.vgg [1, 2]) (envC.vgg [3, 4]) :=
  spec_c4_loss_composer envC [1, 2] [3, 4] rfl rfl rfl

/-- Runtime error of a run: an exception `raised` by a collaborator
(model forward, loss, metrics, optimizer step), or the loop's own
`ZeroDivisionError` from an empty loader. The source contains no
`try`/`except`, so none of these is ever caught. -/
inductive RunError (E : Type) where
  | raised (e : E)
  | zero_division
deriving DecidableEq

/-- Fallible collaborators: the same shapes as `Env`, but the model,
the loss criterion and the metric collaborators may raise. -/
structure EnvE (M E : Type) where
  forward : M → Tensor → Except E Tensor
  opt_step : M → Batch → Except E M
  criterion : Tensor → Tensor → Except E ℚ
  vgg : Tensor → Tensor
  psnr : Tensor → Tensor → Except E ℚ
  ssim : Tensor → Tensor → Except E ℚ
  shuffle : Nat → List Batch → List Batch × Nat

/-- Embeds a collaborator exception into the run's error type. -/
def liftE {E α : Type _} : Except E α → Except (RunError E) α
  | Except.ok a => Except.ok a
  | Except.error e => Except.error (RunError.raised e)

/-- Fallible composed loss (criterion may raise). -/
def batch_lossE {M E : Type} (env : EnvE M E) (outputs targets : Tensor) : Except E ℚ := do
  let l ← env.criterion outputs targets
  pure (l + perceptual_loss_weight * mse_loss (env.vgg outputs) (env.vgg targets))

/-- Fallible training batch body, same order as the source: forward,
loss, PSNR, SSIM, then the optimizer step. An exception at any point
aborts the whole fold. -/
def train_batch_stepE {M E : Type} (env : EnvE M E) (acc : TrainAcc M) (b : Batch) :
    Except (RunError E) (TrainAcc M) := do
  let outputs ← liftE (env.forward acc.model b.inputs)
  let loss ← liftE (batch_lossE env outputs b.targets)
  let p ← liftE (env.psnr outputs b.targets)
  let s ← liftE (env.ssim outputs b.targets)
  let m1 ← liftE (env.opt_step acc.model b)
  pure ⟨m1, acc.train_loss + loss, acc.train_psnr + p, acc.train_ssim + s⟩

/-- Fallible training pass. -/
def train_epochE {M E : Type} (env : EnvE M E) (m : M) (batches : List Batch) :
    Except (RunError E) (M × EpochStats) := do
  let acc ← batches.foldlM (train_batch_stepE env) (⟨m, 0, 0, 0⟩ : TrainAcc M)
  match finalize_stats acc.train_loss acc.train_psnr acc.train_ssim batches.length with
  | none => Except.error RunError.zero_division
  | some st => pure (acc.model, st)

/-- Fallible validation batch body. -/
def val_batch_stepE {M E : Type} (env : EnvE M E) (epoch : Nat) (acc : ValAcc M) (b : Batch) :
    Except (RunError E) (ValAcc M) := do
  let outputs ← liftE (env.forward acc.model b.inputs)
  let loss ← liftE (batch_lossE env outputs b.targets)
  let p ← liftE (env.psnr outputs b.targets)
  let s ← liftE (env.ssim outputs b.targets)
  pure ⟨acc.model, acc.val_loss + loss, acc.val_psnr + p, acc.val_ssim + s, some outputs,
        acc.events ++
          (if (epoch + 1) % 20 = 0 then [Event.save_output_images outputs epoch false] else [])⟩

/-- Fallible validation pass. -/
def val_epochE {M E : Type} (env : EnvE M E) (m : M) (epoch : Nat) (batches : List Batch) :
    Except (RunError E) (ValAcc M × EpochStats) := do
  let acc ← batches.foldlM (val_batch_stepE env epoch) (⟨m, 0, 0, 0, none, []⟩ : ValAcc M)
  match finalize_stats acc.val_loss acc.val_psnr acc.val_ssim batches.length with
  | none => Except.error RunError.zero_division
  | some st => pure (acc, st)

/-- Fallible epoch body. -/
def run_epochE {M E : Type} (env : EnvE M E) (m : M) (best_psnr : ℚ) (epoch : Nat)
    (train_batches val_batches : List Batch) : Except (RunError E) (EpochResult M) := do
  let tr ← train_epochE env m train_batches
  let vr ← val_epochE env tr.1 epoch val_batches
  let bev := checkpoint_check vr.1.model best_psnr vr.2 vr.1.outputs epoch
  pure ⟨vr.1.model, bev.1, tr.2, vr.2, vr.1.events ++ bev.2⟩

/-- Fallible epoch loop: identical structure to `run_loop`, with no
error handler anywhere — an `Except.error` short-circuits the rest of
the run and the error result carries no histories and no stats. -/
def run_loopE {M E : Type} (env : EnvE M E) (train_data val_data : List Batch) :
    M → ℚ → Nat → Nat → Nat → Except (RunError E) (RunResult M)
  | m, best, _, _, 0 => Except.ok ⟨m, best, [], [], []⟩
  | m, best, rng, epoch, k + 1 =>
    let ts := env.shuffle rng train_data
    let vs := env.shuffle ts.2 val_data
    match run_epochE env m best epoch ts.1 vs.1 with
    | Except.error err => Except.error err
    | Except.ok er =>
      match run_loopE env train_data val_data er.model er.best_psnr vs.2 (epoch + 1) k with
      | Except.error err => Except.error err
      | Except.ok rr =>
        Except.ok ⟨rr.model, rr.best_psnr, er.train_stats.loss :: rr.train_losses,
                   er.val_stats.loss :: rr.val_losses, er.events ++ rr.events⟩

/-- Claim C8. Exceptions propagate uncaught and are fatal: (i) if a
batch of the training fold raises after a successful prefix, the whole
training pass returns that error; (ii) if the current epoch returns an
error, the whole remaining run returns exactly that error — no retry,
no recovery, and the `Except.error` result carries no histories, so the
interrupted epoch's accumulated stats are never recorded. -/
theorem spec_c8_exception_propagation {M E : Type} (env : EnvE M E) :
    (∀ (m : M) (pre post : List Batch) (b : Batch) (acc1 : TrainAcc M) (err : RunError E),
      pre.foldlM (train_batch_stepE env) (⟨m, 0, 0, 0⟩ : TrainAcc M) = Except.ok acc1 →
      train_batch_stepE env acc1 b = Except.error err →
      train_epochE env m (pre ++ b :: post) = Except.error err) ∧
    (∀ (train_data val_data : List Batch) (m : M) (best : ℚ) (rng e k : Nat)
        (err : RunError E),
      run_epochE env m best e (env.shuffle rng train_data).1
          (env.shuffle (env.shuffle rng train_data).2 val_data).1 = Except.error err →
      run_loopE env train_data val_data m best rng e (k + 1) = Except.error err) := by
  constructor
  · intro m pre post b acc1 err hpre hb
    unfold train_epochE
    rw [List.foldlM_append, hpre]
    simp only [bind, Except.bind, List.foldlM_cons, hb]
  · intro train_data val_data m best rng e k err h
    simp only [run_loopE, h]

/-- Fallible collaborators whose model forward pass always raises. -/
def envE : EnvE ℚ Unit :=
  { forward := fun _ _ => Except.error ()
    opt_step := fun m _ => Except.ok m
    criterion := fun _ _ => Except.ok 0
    vgg := fun _ => [0]
    psnr := fun _ _ => Except.ok 0
    ssim := fun _ _ => Except.ok 0
    shuffle := fun r bs => (bs, r) }

/-- Witness for C8: with a model that raises on its first forward pass,
the whole run terminates with exactly that exception. -/
theorem spec_c8_exception_propagation_witness :
    run_loopE envE [bW] [bW] (22 : ℚ) 0 42 0 1 =
      Except.error (RunError.raised ()) :=
  (spec_c8_exception_propagation envE).2 [bW] [bW] 22 0 42 0 0 (RunError.raised ()) rfl
